import Mathlib

/-!
# Verification of the `flow` delta-neutral hedging bot core

Shallow embedding of the repository's core modules:

* `src/core/config.py` — persisted configuration schema (pydantic models);
* `src/exchanges/base.py` — `Position` / `Order` data model;
* `src/exchanges/mock.py` — `MockExchange` reference adapter;
* `src/strategy/delta_neutral.py` — the `DeltaNeutralStrategy` state machine;
* `src/core/bot_manager.py` — `BotInstance` lifecycle and `BotManager`.

Python `Decimal` arithmetic is embedded as exact rational arithmetic (`ℚ`);
all quantities involved are small and exactly representable.  Calls to
`random.uniform` are embedded by threading the drawn values in explicitly
(an `Oracle` record), so every definition is a computable function of its
inputs.  `await` points are irrelevant to sequencing within one coroutine,
so each `async` method becomes an ordinary function; where a method spawns
or cancels tasks, the embedding records that as an explicit event in a
returned event list.
-/

namespace Flow

/-! ## Configuration schema (`src/core/config.py`)

`config.py` declares the pydantic models actually validated and persisted.
Note that `AccountConfig` declares *no* `exchanges` field — it declares
`pacifica` and `variational` — and `ExchangeConfig` declares *no*
`exchange_type` field, although `bot_manager.py` and `ui/app.py` use both.
-/

/-- `ExchangeConfig` from `src/core/config.py`: api_key, api_secret,
optional wallet_private_key. -/
structure ExchangeConfig where
  api_key : String := ""
  api_secret : String := ""
  wallet_private_key : Option String := none
deriving DecidableEq, Repr

/-- `AccountConfig` from `src/core/config.py`.  Fields exactly as declared
there: `name`, `enabled`, `pacifica`, `variational`, `target_size_usd`. -/
structure AccountConfig where
  name : String := "Account 1"
  enabled : Bool := true
  pacifica : ExchangeConfig := {}
  variational : ExchangeConfig := {}
  target_size_usd : ℚ := 1000
deriving DecidableEq, Repr

/-- Python runtime errors that the embedded code can raise. -/
inductive PyErr where
  | attributeError (attr : String)
deriving DecidableEq, Repr

/-- Dynamic attribute access `config.exchanges` on an `AccountConfig`
instance.  `AccountConfig` (pydantic `BaseModel`, default
`extra='ignore'`) declares no `exchanges` field, so any `exchanges=` kwarg
passed at construction is silently discarded during validation, and
reading the attribute raises `AttributeError`. -/
def AccountConfig.exchangesAttr (_ : AccountConfig) :
    Except PyErr (List ExchangeConfig) :=
  .error (.attributeError "exchanges")

/-! ## Exchange data model (`src/exchanges/base.py`) -/

/-- `Position` from `src/exchanges/base.py`. -/
structure Position where
  symbol : String
  side : String
  size : ℚ
  entry_price : ℚ
  unrealized_pnl : ℚ
deriving DecidableEq, Repr

/-- `Order` from `src/exchanges/base.py`. -/
structure Order where
  symbol : String
  side : String
  amount : ℚ
  price : Option ℚ := none
  order_type : String := "limit"
deriving DecidableEq, Repr

/-! ## Mock exchange (`src/exchanges/mock.py`)

The `positions` dict (symbol → Position) is embedded as an association
list in insertion order, matching Python dict iteration order. -/

/-- State of a `MockExchange` instance. -/
structure MockExchange where
  name : String := "MockExchange"
  connected : Bool := false
  positions : List (String × Position) := []
  balance : ℚ := 10000
  current_price : ℚ := 100
deriving DecidableEq, Repr

/-- Python dict assignment `d[k] = v`: overwrite in place if the key is
present, else append (insertion order preserved). -/
def dictInsert (k : String) (v : Position) :
    List (String × Position) → List (String × Position)
  | [] => [(k, v)]
  | (k', v') :: rest =>
      if k' = k then (k, v) :: rest else (k', v') :: dictInsert k v rest

/-- Python dict lookup `d[k]` as an option. -/
def dictGet (k : String) (l : List (String × Position)) : Option Position :=
  (l.find? (fun p => p.1 = k)).map (fun p => p.2)

/-- `MockExchange.get_price`: drifts `current_price` by the drawn random
change (`Decimal(random.uniform(-0.5, 0.5))` in the source; the drawn
value is threaded in as `change`) and returns the new price. -/
def getPrice (ex : MockExchange) (change : ℚ) : MockExchange × ℚ :=
  let p := ex.current_price + change
  ({ ex with current_price := p }, p)

/-- `MockExchange.connect`: sleeps, then sets `connected = True`. -/
def connect (ex : MockExchange) : MockExchange :=
  { ex with connected := true }

/-- `MockExchange.open_position symbol side amount`: raises
`ConnectionError` when not connected; otherwise draws a fresh price via
`get_price` (random change `change`), records one position for the symbol
(overwriting any prior one) with zero initial pnl, and returns the
resulting market `Order`. -/
def openPosition (ex : MockExchange) (symbol side : String) (amount : ℚ)
    (change : ℚ) : Except String (MockExchange × Order) :=
  if ex.connected = false then .error "Exchange not connected"
  else
    let ex1 := (getPrice ex change).1
    let price := (getPrice ex change).2
    let pos : Position :=
      { symbol := symbol, side := side, size := amount
        entry_price := price, unrealized_pnl := 0 }
    .ok ({ ex1 with positions := dictInsert symbol pos ex1.positions },
         { symbol := symbol, side := side, amount := amount
           price := some price, order_type := "market" })

/-- `MockExchange.close_position symbol`: deletes the symbol's position if
present and returns the closing `Order`; returns `none` (never raises)
when there is nothing to close. -/
def closePosition (ex : MockExchange) (symbol : String) :
    MockExchange × Option Order :=
  if ex.positions.any (fun p => p.1 = symbol) then
    ({ ex with positions := ex.positions.filter (fun p => ¬ p.1 = symbol) },
     some { symbol := symbol, side := "close", amount := 0
            price := some ex.current_price, order_type := "market" })
  else (ex, none)

/-- The per-position pnl update performed inside
`MockExchange.get_positions`: `diff = current_p - entry_price`, negated
when the stored side equals the string `'short'`, then
`unrealized_pnl = diff * size`. -/
def pnlUpdate (current_p : ℚ) (p : Position) : Position :=
  let diff := current_p - p.entry_price
  let diff := if p.side = "short" then -diff else diff
  { p with unrealized_pnl := diff * p.size }

/-- `MockExchange.get_positions`: draws the latest price for `"BTC-PERP"`
(via `get_price`, random change `change`), updates every stored
position's `unrealized_pnl` in place, and returns the positions in
insertion order. -/
def getPositions (ex : MockExchange) (change : ℚ) :
    MockExchange × List Position :=
  let ex1 := (getPrice ex change).1
  let current_p := (getPrice ex change).2
  let updated := ex1.positions.map (fun p => (p.1, pnlUpdate current_p p.2))
  ({ ex1 with positions := updated }, updated.map (fun p => p.2))

/-! ## Strategy state machine (`src/strategy/delta_neutral.py`) -/

/-- `StrategyState` enum: IDLE, OPENING, HEDGED, CLOSING. -/
inductive StrategyState where
  | IDLE
  | OPENING
  | HEDGED
  | CLOSING
deriving DecidableEq, Repr

/-- Mutable state of one `DeltaNeutralStrategy` object together with its
two exchange adapters (`self.ex_a`, `self.ex_b`). -/
structure StratSys where
  state : StrategyState := .IDLE
  target_size_usd : ℚ := 1000
  symbol : String := "BTC-PERP"
  current_pnl : ℚ := 0
  exA : MockExchange
  exB : MockExchange
deriving DecidableEq, Repr

/-- The random values drawn during one iteration of `run_loop`:
the idle think time (`random.uniform(2, 5)`), the four price changes
drawn while OPENING (two explicit `get_price` calls and one inside each
`open_position`), the hold duration `int(random.uniform(5, 10))` for
HEDGED, and the stream of per-poll price changes (one per exchange per
polling iteration). -/
structure Oracle where
  thinkTime : ℚ := 3
  dA1 : ℚ := 0
  dB1 : ℚ := 0
  dA2 : ℚ := 0
  dB2 : ℚ := 0
  holdSecs : ℕ := 5
  holdChanges : ℕ → ℚ × ℚ := fun _ => (0, 0)

/-- A handler either returns the updated system (with the handler's final
state assignment applied), or raises: the error carries the exception
message together with the partially mutated system at the raise point. -/
abbrev HandlerResult := Except (String × StratSys) StratSys

/-- `_handle_idle`: sleep a jittered think time, then set state to
OPENING.  Never raises. -/
def handleIdle (sys : StratSys) : HandlerResult :=
  .ok { sys with state := .OPENING }

/-- `_handle_opening`: fetch a price on each leg, compute each leg's
amount as `target_size_usd / price`, then `open_position` with side
`'buy'` on leg A and `'sell'` on leg B (each `open_position` draws a
fresh execution price), finally set state to HEDGED.  A raise from
`open_position` (exchange not connected) leaves `state` unassigned. -/
def handleOpening (sys : StratSys) (o : Oracle) : HandlerResult :=
  let exA1 := (getPrice sys.exA o.dA1).1
  let price_a := (getPrice sys.exA o.dA1).2
  let exB1 := (getPrice sys.exB o.dB1).1
  let price_b := (getPrice sys.exB o.dB1).2
  let amount_a := sys.target_size_usd / price_a
  let amount_b := sys.target_size_usd / price_b
  match openPosition exA1 sys.symbol "buy" amount_a o.dA2 with
  | .error m => .error (m, { sys with exA := exA1, exB := exB1 })
  | .ok (exA2, _) =>
    match openPosition exB1 sys.symbol "sell" amount_b o.dB2 with
    | .error m => .error (m, { sys with exA := exA2, exB := exB1 })
    | .ok (exB2, _) =>
        .ok { sys with exA := exA2, exB := exB2, state := .HEDGED }

/-- The polling loop inside `_handle_hedged`: `k` remaining iterations,
each reading `get_positions()[0]` on both legs (an `IndexError` raise when
a leg holds no positions) and summing the two unrealized pnls into
`current_pnl`.  `i` indexes into the oracle's per-poll price changes. -/
def hedgedIter (sys : StratSys) (chs : ℕ → ℚ × ℚ) :
    ℕ → ℕ → HandlerResult
  | 0, _ => .ok sys
  | k + 1, i =>
    let exA1 := (getPositions sys.exA (chs i).1).1
    let psA := (getPositions sys.exA (chs i).1).2
    let sysA := { sys with exA := exA1 }
    match psA.head? with
    | none => .error ("IndexError", sysA)
    | some pos_a =>
      let exB1 := (getPositions sysA.exB (chs i).2).1
      let psB := (getPositions sysA.exB (chs i).2).2
      let sysB := { sysA with exB := exB1 }
      match psB.head? with
      | none => .error ("IndexError", sysB)
      | some pos_b =>
          hedgedIter
            { sysB with
                current_pnl := pos_a.unrealized_pnl + pos_b.unrealized_pnl }
            chs k (i + 1)

/-- `_handle_hedged`: hold for the drawn duration, polling both legs'
positions once per second, then set state to CLOSING. -/
def handleHedged (sys : StratSys) (o : Oracle) : HandlerResult :=
  match hedgedIter sys o.holdChanges o.holdSecs 0 with
  | .error e => .error e
  | .ok sys1 => .ok { sys1 with state := .CLOSING }

/-- `_handle_closing`: `close_position` on both legs (total, never
raises), reset `current_pnl` to zero, set state to IDLE. -/
def handleClosing (sys : StratSys) : HandlerResult :=
  let exA1 := (closePosition sys.exA sys.symbol).1
  let exB1 := (closePosition sys.exB sys.symbol).1
  .ok { sys with exA := exA1, exB := exB1, current_pnl := 0, state := .IDLE }

/-- One dispatch of the `run_loop` body's `if/elif` chain: run the
handler for the current state. -/
def stratStepRes (sys : StratSys) (o : Oracle) : HandlerResult :=
  match sys.state with
  | .IDLE => handleIdle sys
  | .OPENING => handleOpening sys o
  | .HEDGED => handleHedged sys o
  | .CLOSING => handleClosing sys

/-- Observable events of one `run_loop` iteration. -/
inductive LogEvent where
  | errorLogged (msg : String)
  | backoff (secs : ℕ)
  | loopSleep (secs : ℕ)
deriving DecidableEq, Repr

/-- One full iteration of `run_loop`: the `try` block dispatches the
current state's handler; `except Exception` logs the error and sleeps a
fixed 5 s backoff, leaving the partially mutated system as is; every
iteration ends with `await asyncio.sleep(1)`.  Total: the loop itself
never raises and never terminates of its own accord. -/
def runLoopIter (sys : StratSys) (o : Oracle) : StratSys × List LogEvent :=
  match stratStepRes sys o with
  | .ok sys1 => (sys1, [.loopSleep 1])
  | .error (m, sys1) => (sys1, [.errorLogged m, .backoff 5, .loopSleep 1])

/-- The trajectory of `run_loop`: the system after `n` iterations, the
`k`-th iteration drawing its randomness from `os k`. -/
def runLoopTraj (sys : StratSys) (os : ℕ → Oracle) : ℕ → StratSys
  | 0 => sys
  | n + 1 => (runLoopIter (runLoopTraj sys os n) (os n)).1

/-- `true` exactly on `.error`. -/
def HandlerResult.isErr : HandlerResult → Bool
  | .error _ => true
  | .ok _ => false

/-! ## BotInstance lifecycle (`src/core/bot_manager.py`)

A `BotInstance` owns a `running` flag, an optional task handle
(`self.task`, here the boolean `hasTask`) and one `DeltaNeutralStrategy`
object (`strat`), which survives stop/start: cancelling the task does not
touch `self.strategy.state`.  `start`/`stop` are modelled as functions of
the instance state; since `BotInstance` is written against the abstract
`ExchangeBase`, the outcome of each adapter's `connect()` is threaded in
as a boolean (`MockExchange.connect` always succeeds, but `start` itself
is adapter-generic). -/

/-- Observable actions of `BotInstance.start`/`stop`. -/
inductive BotEvent where
  | connectA
  | connectB
  | spawnTask
  | cancelTask
  | awaitTask
deriving DecidableEq, Repr

/-- State of one `BotInstance`. -/
structure BotInstance where
  running : Bool := false
  hasTask : Bool := false
  strat : StratSys
deriving DecidableEq, Repr

/-- `BotInstance.start`: returns immediately when already running;
otherwise sets `running = True` first, then awaits `ex_a.connect()` and
`ex_b.connect()` (a raise propagates to the caller, leaving the flag
set and no task spawned), and finally spawns the strategy task. -/
def BotInstance.start (b : BotInstance) (connA connB : Bool) :
    BotInstance × Except String Unit × List BotEvent :=
  if b.running then (b, .ok (), [])
  else
    let b1 := { b with running := true }
    if connA = false then
      (b1, .error "connect failed on ex_a", [.connectA])
    else if connB = false then
      (b1, .error "connect failed on ex_b", [.connectA, .connectB])
    else
      ({ b1 with hasTask := true }, .ok (),
       [.connectA, .connectB, .spawnTask])

/-- `BotInstance.stop`: returns immediately when not running; otherwise
clears the flag, and if a task handle exists cancels it, awaits it
(swallowing `CancelledError`; the strategy object and its state survive),
and clears the handle. -/
def BotInstance.stop (b : BotInstance) : BotInstance × List BotEvent :=
  if b.running = false then (b, [])
  else
    let b1 := { b with running := false }
    if b.hasTask then ({ b1 with hasTask := false }, [.cancelTask, .awaitTask])
    else (b1, [])

/-! ## BotManager (`src/core/bot_manager.py`) -/

/-- The default account seeded by `BotManager.__init__` when the
persisted list is empty:
`AccountConfig(name="Demo Account", target_size_usd=1000.0,
exchanges=[ExchangeConfig(exchange_type="mock"), ...])`.
pydantic validation (default `extra='ignore'`) silently discards the
`exchanges=` keyword because `config.py`'s `AccountConfig` declares no
such field, and likewise discards `exchange_type=`; the remaining fields
take their declared values/defaults. -/
def defaultAccount : AccountConfig :=
  { name := "Demo Account", enabled := true
    pacifica := {}, variational := {}, target_size_usd := 1000 }

/-- `BotInstance.__init__(config)`: its first touch of the config is
`len(config.exchanges)`, so it raises whatever `config.exchanges`
raises (`AttributeError`, see `AccountConfig.exchangesAttr`). -/
def botInstanceInit (c : AccountConfig) : Except PyErr BotInstance :=
  match c.exchangesAttr with
  | .error e => .error e
  | .ok _ =>
      .ok { running := false, hasTask := false
            strat := { exA := { name := "unused" }, exB := { name := "unused" } } }

/-- `BotManager._initialize_bots`: build one `BotInstance` per enabled
account (a raise from any constructor propagates). -/
def initBots (accs : List AccountConfig) : Except PyErr (List BotInstance) :=
  (accs.filter (fun a => a.enabled)).mapM botInstanceInit

/-- `BotManager.__init__` given the loaded persisted account list:
when it is empty, append the seeded default account and persist; then
`_initialize_bots()`.  Returns the account list as persisted at the time
`_initialize_bots` runs, together with that call's outcome. -/
def managerInit (persisted : List AccountConfig) :
    List AccountConfig × Except PyErr (List BotInstance) :=
  let accounts := if persisted.isEmpty then [defaultAccount] else persisted
  (accounts, initBots accounts)

/-- Supervisor-level state: the persisted `config.accounts` list and the
parallel `self.bots` list (each bot represented by the `AccountConfig` it
was built from, which is what `remove_account`'s lookup compares with
`==`, i.e. pydantic field-wise equality). -/
structure MgrState where
  accounts : List AccountConfig
  bots : List AccountConfig
deriving DecidableEq, Repr

/-- Observable events of a structural mutation on the manager.
`stopCompleted` stands for an *awaited* completion of an instance's
`stop()`; `spawnStopTask` is the fire-and-forget
`asyncio.create_task(bot.stop())`. -/
inductive MgrEvent where
  | spawnStopTask
  | stopCompleted
  | removeBot
  | popAccount
  | saveConfig
  | spawnRestartTask
deriving DecidableEq, Repr

/-- `BotManager.remove_account(index)`: inside the bounds guard, resolve
the bot whose config equals `accounts[index]`; if found, schedule its
stop as a background task and remove it from `self.bots` immediately;
then pop the account and save.  Out of bounds: silently do nothing. -/
def removeAccount (m : MgrState) (index : ℕ) :
    MgrState × List MgrEvent :=
  if h : index < m.accounts.length then
    let acc := m.accounts.get ⟨index, h⟩
    match m.bots.find? (fun b => b = acc) with
    | some bot =>
        ({ accounts := m.accounts.eraseIdx index
           bots := m.bots.erase bot },
         [.spawnStopTask, .removeBot, .popAccount, .saveConfig])
    | none =>
        ({ accounts := m.accounts.eraseIdx index, bots := m.bots },
         [.popAccount, .saveConfig])
  else (m, [])

/-- Modelled from the spec: the spec's error taxonomy names a
`StructuralMutationError` for out-of-range structural mutations.  No such
type exists anywhere under `src/`; it is declared here only so the
claimed behavior can be stated and compared with the code's. -/
inductive MgrError where
  | structuralMutation
deriving DecidableEq, Repr

/-- `BotManager.update_account(index, new_config)`: inside the bounds
guard, replace the account, save, and (when a bot was built from the old
config) schedule a fire-and-forget restart task.  Out of bounds: silently
do nothing — no error value of any kind is produced. -/
def updateAccount (m : MgrState) (index : ℕ) (new_config : AccountConfig) :
    MgrState × Option MgrError × List MgrEvent :=
  if h : index < m.accounts.length then
    let old_config := m.accounts.get ⟨index, h⟩
    let events :=
      if m.bots.any (fun b => b = old_config) then
        [MgrEvent.saveConfig, MgrEvent.spawnRestartTask]
      else [MgrEvent.saveConfig]
    ({ accounts := m.accounts.set index new_config, bots := m.bots },
     none, events)
  else (m, none, [])

/-- `asyncio.gather(*tasks)` with default `return_exceptions=False`, as
used by `start_all`/`stop_all`: every awaitable is scheduled and runs,
but the awaiting caller receives the list of results only when all
succeed, and otherwise the first exception raised (completion order is
abstracted as list order); the remaining outcomes are discarded. -/
def gatherSem : List (Except String Unit) → Except String (List Unit)
  | [] => .ok []
  | .ok _ :: rest =>
      match gatherSem rest with
      | .ok us => .ok (() :: us)
      | .error e => .error e
  | .error e :: _ => .error e

/-- `BotManager.start_all`: `await asyncio.gather(*[bot.start() ...])`,
given each instance's start outcome. -/
def startAllSem (outcomes : List (Except String Unit)) :
    Except String (List Unit) :=
  gatherSem outcomes

/-- `BotManager.stop_all`: `await asyncio.gather(*[bot.stop() ...])`,
given each instance's stop outcome. -/
def stopAllSem (outcomes : List (Except String Unit)) :
    Except String (List Unit) :=
  gatherSem outcomes

/-- `true` iff the trace shows an awaited stop completion strictly before
the removal of the instance, which in turn precedes the removal of the
persisted account — the ordering claimed for `remove_account`. -/
def stopAwaitedBeforeRemoval (tr : List MgrEvent) : Bool :=
  tr.contains .stopCompleted && tr.contains .removeBot &&
    tr.contains .popAccount &&
    List.indexOf .stopCompleted tr < List.indexOf .removeBot tr &&
    List.indexOf .removeBot tr < List.indexOf .popAccount tr

/-- The advance order claimed by the spec:
IDLE → OPENING → HEDGED → CLOSING → IDLE. -/
def cycleNext : StrategyState → StrategyState
  | .IDLE => .OPENING
  | .OPENING => .HEDGED
  | .HEDGED => .CLOSING
  | .CLOSING => .IDLE

instance {ε α : Type} [DecidableEq ε] [DecidableEq α] :
    DecidableEq (Except ε α) := fun a b =>
  match a, b with
  | .ok x, .ok y =>
      if h : x = y then .isTrue (congrArg Except.ok h)
      else .isFalse (by intro hc; cases hc; exact h rfl)
  | .error x, .error y =>
      if h : x = y then .isTrue (congrArg Except.error h)
      else .isFalse (by intro hc; cases hc; exact h rfl)
  | .ok _, .error _ => .isFalse (by intro hc; cases hc)
  | .error _, .ok _ => .isFalse (by intro hc; cases hc)

/-! ## Concrete states used in witnesses and counterexamples -/

/-- A connected mock adapter for leg A, as `BotInstance.__init__` would
produce (initial price 100, balance reset to 10000). -/
def mockA : MockExchange := { name := "Mock A (Demo Account)", connected := true }

/-- A connected mock adapter for leg B. -/
def mockB : MockExchange := { name := "Mock B (Demo Account)", connected := true }

/-- A freshly started strategy system: state IDLE, target 1000 USD. -/
def sysIdle : StratSys := { exA := mockA, exB := mockB }

/-- A deterministic oracle: zero price drift, think time 3 s, hold 5 s. -/
def oZero : Oracle := {}

/-! ## Shared helper lemmas -/

theorem dictGet_dictInsert (k : String) (v : Position) :
    ∀ l : List (String × Position), dictGet k (dictInsert k v l) = some v := by
  intro l
  induction l with
  | nil => simp [dictInsert, dictGet]
  | cons hd tl ih =>
      by_cases h : hd.1 = k
      · simp [dictInsert, dictGet, h]
      · simp only [dictInsert, if_neg h, dictGet, List.find?]
        rw [show (decide (hd.1 = k)) = false by simpa using h]
        simpa [dictGet] using ih

/-- On success, `_handle_opening` produces exactly this system: each leg
records one position sized `target_size_usd / fetched price`, bought on
leg A and sold on leg B, and the state becomes HEDGED. -/
theorem handleOpening_ok_eq (sys : StratSys) (o : Oracle)
    (hA : sys.exA.connected = true) (hB : sys.exB.connected = true) :
    handleOpening sys o =
      .ok { sys with
              exA := { sys.exA with
                         current_price := sys.exA.current_price + o.dA1 + o.dA2
                         positions :=
                           dictInsert sys.symbol
                             { symbol := sys.symbol, side := "buy"
                               size := sys.target_size_usd /
                                 (sys.exA.current_price + o.dA1)
                               entry_price := sys.exA.current_price + o.dA1 + o.dA2
                               unrealized_pnl := 0 } sys.exA.positions }
              exB := { sys.exB with
                         current_price := sys.exB.current_price + o.dB1 + o.dB2
                         positions :=
                           dictInsert sys.symbol
                             { symbol := sys.symbol, side := "sell"
                               size := sys.target_size_usd /
                                 (sys.exB.current_price + o.dB1)
                               entry_price := sys.exB.current_price + o.dB1 + o.dB2
                               unrealized_pnl := 0 } sys.exB.positions }
              state := .HEDGED } := by
  simp [handleOpening, openPosition, getPrice, hA, hB]

/-- An error escaping the polling loop of `_handle_hedged` leaves the
strategy state untouched. -/
theorem hedgedIter_error_state (chs : ℕ → ℚ × ℚ) :
    ∀ (k i : ℕ) (sys sysP : StratSys) (m : String),
      hedgedIter sys chs k i = .error (m, sysP) → sysP.state = sys.state := by
  intro k
  induction k with
  | zero => intro i sys sysP m h; simp [hedgedIter] at h
  | succ k ih =>
      intro i sys sysP m h
      simp only [hedgedIter] at h
      split at h
      · cases h
        rfl
      · split at h
        · cases h
          rfl
        · have h2 := ih (i + 1) _ sysP m h
          exact h2

/-- An error escaping any state handler leaves the strategy state
untouched (each handler assigns `self.state` only as its final act). -/
theorem stratStepRes_error_state (sys : StratSys) (o : Oracle)
    (m : String) (sysP : StratSys)
    (h : stratStepRes sys o = .error (m, sysP)) : sysP.state = sys.state := by
  unfold stratStepRes at h
  split at h
  next => simp [handleIdle] at h
  next heq =>
    rw [heq]
    unfold handleOpening at h
    dsimp only at h
    split at h
    · cases h
      exact heq
    · split at h
      · cases h
        exact heq
      · cases h
  next heq =>
    rw [heq]
    unfold handleHedged at h
    split at h
    next heq2 =>
      cases h
      exact (hedgedIter_error_state o.holdChanges o.holdSecs 0 sys sysP m heq2).trans heq
    next => cases h
  next => simp [handleClosing] at h

/-! ## Claims -/

/-- C1: the claim says constructing the supervisor over an empty
persisted account list seeds one default account (enabled, target 1000,
two mock legs) and builds one running `BotInstance`.  What the code does
at that input: it does append and persist a seeded account — but pydantic
discards the `exchanges=[mock, mock]` keyword (no such field on
`AccountConfig`), so the persisted account carries no legs — and
`_initialize_bots` then raises `AttributeError: exchanges` inside
`BotInstance.__init__`, so construction faults and no instance (running
or not) is ever built. -/
theorem C1_manager_init_faults :
    managerInit [] = ([defaultAccount], .error (.attributeError "exchanges")) ∧
    defaultAccount.enabled = true ∧
    defaultAccount.target_size_usd = 1000 ∧
    defaultAccount.exchangesAttr = .error (.attributeError "exchanges") :=
  ⟨rfl, rfl, rfl, rfl⟩

/-- C2 counterexample: the claim says a restart after `stop()` resumes
from IDLE.  Take the instance after two successful loop iterations (so
HEDGED is reached from IDLE — first conjunct); stopping and restarting it
resumes the strategy from HEDGED, not IDLE (second conjunct). -/
theorem C2_counterexample :
    (runLoopTraj sysIdle (fun _ => oZero) 2).state = .HEDGED ∧
    ¬ ((BotInstance.start
          ((BotInstance.stop
              { running := true, hasTask := true
                strat := runLoopTraj sysIdle (fun _ => oZero) 2 }).1)
          true true).1.strat.state = .IDLE) := by
  decide

/-- C2 amended: after `stop()` completes, a subsequent `start()` (with
adapters whose `connect` succeeds, as `MockExchange.connect` always does)
succeeds, sets the running flag, spawns a fresh task — and the strategy
resumes from the state it held when stopped (the strategy object survives
cancellation), which is IDLE exactly when it was stopped while IDLE. -/
theorem C2_stop_start_resumes_prior_state (b : BotInstance) :
    ((b.stop).1.start true true).2.1 = .ok () ∧
    ((b.stop).1.start true true).1.running = true ∧
    ((b.stop).1.start true true).1.hasTask = true ∧
    ((b.stop).1.start true true).1.strat = b.strat := by
  rcases b with ⟨r, t, s⟩
  cases r <;> cases t <;>
    simp [BotInstance.stop, BotInstance.start]

/-- A minimal persisted account used in manager-level scenarios. -/
def acc1 : AccountConfig := {}

/-- A manager owning one account whose instance is active. -/
def mgr1 : MgrState := { accounts := [acc1], bots := [acc1] }

/-- C3 counterexample: the claim says `remove_account` awaits the full
stop before removing the instance and the account.  On a manager with one
active account, `remove_account 0` emits exactly
`[spawnStopTask, removeBot, popAccount, saveConfig]`: the stop is merely
scheduled as a background task, and no awaited stop completion precedes
either removal. -/
theorem C3_counterexample :
    removeAccount mgr1 0 =
      ({ accounts := [], bots := [] },
       [.spawnStopTask, .removeBot, .popAccount, .saveConfig]) ∧
    stopAwaitedBeforeRemoval (removeAccount mgr1 0).2 = false := by
  decide

/-- C3 amended: for every valid index whose account has a matching active
instance, `remove_account` schedules the instance's stop as an unawaited
fire-and-forget task and immediately removes the instance from the active
list, pops the persisted account and saves; no awaited stop completion
occurs anywhere in the operation. -/
theorem C3_remove_schedules_stop_unawaited (m : MgrState) (i : ℕ)
    (h : i < m.accounts.length)
    (hb : (m.bots.find? (fun b => b = m.accounts.get ⟨i, h⟩)).isSome = true) :
    (removeAccount m i).2 =
      [.spawnStopTask, .removeBot, .popAccount, .saveConfig] ∧
    (removeAccount m i).2.contains .stopCompleted = false := by
  unfold removeAccount
  rw [dif_pos h]
  dsimp only
  rcases hf : m.bots.find? (fun b => b = m.accounts.get ⟨i, h⟩) with _ | bot
  · rw [hf] at hb
    simp at hb
  · exact ⟨rfl, rfl⟩

/-- C3 witness. -/
theorem C3_witness :
    (removeAccount mgr1 0).2 =
      [.spawnStopTask, .removeBot, .popAccount, .saveConfig] ∧
    (removeAccount mgr1 0).2.contains .stopCompleted = false :=
  C3_remove_schedules_stop_unawaited mgr1 0 (by decide) (by decide)

/-- C5 counterexample: the claim says an out-of-range `update_account`
fails with a typed `StructuralMutationError`.  On a manager with one
account, `update_account 5 ...` returns with no error of any kind and
changes nothing. -/
theorem C5_counterexample :
    updateAccount mgr1 5 { name := "patched" } = (mgr1, none, []) ∧
    ¬ ((updateAccount mgr1 5 { name := "patched" }).2.1 =
        some .structuralMutation) := by
  decide

/-- C5 amended: `update_account` with an out-of-range index is a silent
no-op: the guard `0 <= index < len(accounts)` filters it out, so the call
returns normally (no out-of-bounds fault), raises no error, mutates
nothing and persists nothing. -/
theorem C5_update_out_of_range_silent (m : MgrState) (i : ℕ)
    (cfg : AccountConfig) (h : m.accounts.length ≤ i) :
    updateAccount m i cfg = (m, none, []) := by
  unfold updateAccount
  rw [dif_neg (by omega)]

/-- C5 witness. -/
theorem C5_witness :
    updateAccount mgr1 7 { name := "patched again" } = (mgr1, none, []) :=
  C5_update_out_of_range_silent mgr1 7 { name := "patched again" } (by decide)

/-- C4 counterexample: the claim says failures are collected and reported
rather than the first raised one propagating.  With two failing
instances, `start_all` (plain `asyncio.gather`) surfaces only the first
instance's error; the second failure is reported nowhere. -/
theorem C4_counterexample :
    startAllSem [.error "instance 0 failed", .error "instance 1 failed"] =
      .error "instance 0 failed" ∧
    ¬ (startAllSem [.error "instance 0 failed", .error "instance 1 failed"] =
        .error "instance 1 failed") := by
  decide

/-- C4 amended: `start_all`/`stop_all` fan the operation out to every
instance via `asyncio.gather` (so all are launched; a failing sibling is
not cancelled), and when every instance succeeds all results are awaited;
but when any instance fails, the first failure alone propagates to the
caller and the remaining outcomes are discarded, not collected. -/
theorem C4_gather_first_error_propagates :
    (∀ outcomes : List (Except String Unit),
      (∀ r ∈ outcomes, r = .ok ()) →
      startAllSem outcomes = .ok (outcomes.map fun _ => ())) ∧
    (∀ (pre post : List (Except String Unit)) (e : String),
      (∀ r ∈ pre, r = .ok ()) →
      startAllSem (pre ++ .error e :: post) = .error e) ∧
    (∀ outcomes : List (Except String Unit),
      stopAllSem outcomes = startAllSem outcomes) := by
  refine ⟨?_, ?_, fun _ => rfl⟩
  · intro outcomes hall
    induction outcomes with
    | nil => rfl
    | cons hd tl ih =>
        have hhd := hall hd (List.mem_cons_self hd tl)
        subst hhd
        have := ih (fun r hr => hall r (List.mem_cons_of_mem _ hr))
        simp only [startAllSem, gatherSem] at this ⊢
        rw [this]
        rfl
  · intro pre post e hpre
    induction pre with
    | nil => rfl
    | cons hd tl ih =>
        have hhd := hpre hd (List.mem_cons_self hd tl)
        subst hhd
        have := ih (fun r hr => hpre r (List.mem_cons_of_mem _ hr))
        simp only [startAllSem, gatherSem, List.cons_append, List.append_eq]
          at this ⊢
        rw [this]

/-- C4 witness. -/
theorem C4_witness :
    startAllSem [.ok (), .error "boom", .error "ignored"] = .error "boom" :=
  C4_gather_first_error_propagates.2.1 [.ok ()] [.error "ignored"] "boom"
    (by decide)

/-- C6: for every strategy state, an error raised by the state's handler
is caught by the `run_loop` supervising loop, logged, followed by the
fixed 5 s backoff (and the common 1 s loop sleep), and the loop resumes
at the same state: the handler assigns the next state only as its final
act, so the state at the raise point is unchanged.  Iterating: any number
of consecutive failing iterations leaves the state exactly where it was —
never reset to IDLE, with no retry cap (the loop carries no counter). -/
theorem C6_error_caught_backoff_same_state :
    (∀ (sys : StratSys) (o : Oracle) (m : String) (sysP : StratSys),
      stratStepRes sys o = .error (m, sysP) →
      runLoopIter sys o = (sysP, [.errorLogged m, .backoff 5, .loopSleep 1]) ∧
      sysP.state = sys.state) ∧
    (∀ (sys : StratSys) (os : ℕ → Oracle) (n : ℕ),
      (∀ k, k < n →
        (stratStepRes (runLoopTraj sys os k) (os k)).isErr = true) →
      (runLoopTraj sys os n).state = sys.state) := by
  constructor
  · intro sys o m sysP h
    refine ⟨?_, stratStepRes_error_state sys o m sysP h⟩
    unfold runLoopIter
    rw [h]
  · intro sys os n
    induction n with
    | zero => intro _; rfl
    | succ n ih =>
        intro hall
        have hstate := ih (fun k hk => hall k (Nat.lt_succ_of_lt hk))
        have herr := hall n (Nat.lt_succ_self n)
        rcases he : stratStepRes (runLoopTraj sys os n) (os n) with e | s1
        · rcases e with ⟨m, sysP⟩
          have hP := stratStepRes_error_state _ _ _ _ he
          show (runLoopIter (runLoopTraj sys os n) (os n)).1.state = sys.state
          unfold runLoopIter
          rw [he]
          exact hP.trans hstate
        · rw [he] at herr
          simp [HandlerResult.isErr] at herr

/-- A strategy stuck in OPENING on a disconnected leg A: every iteration
raises `ConnectionError` from `open_position`. -/
def sysOpenFail : StratSys :=
  { state := .OPENING, exA := { mockA with connected := false }, exB := mockB }

/-- The partially mutated system at the raise point of `sysOpenFail`'s
OPENING handler: both legs' prices were already fetched. -/
def sysOpenFailP : StratSys :=
  { sysOpenFail with
      exA := (getPrice sysOpenFail.exA oZero.dA1).1
      exB := (getPrice sysOpenFail.exB oZero.dB1).1 }

/-- C6 witness: one failing iteration is caught, logged, backs off 5 s
and stays in OPENING; two consecutive failing iterations still leave the
state at OPENING. -/
theorem C6_witness :
    (runLoopIter sysOpenFail oZero =
      (sysOpenFailP, [.errorLogged "Exchange not connected", .backoff 5,
                      .loopSleep 1]) ∧
     sysOpenFailP.state = sysOpenFail.state) ∧
    (runLoopTraj sysOpenFail (fun _ => oZero) 2).state = sysOpenFail.state :=
  ⟨C6_error_caught_backoff_same_state.1 sysOpenFail oZero
      "Exchange not connected" sysOpenFailP rfl,
   C6_error_caught_backoff_same_state.2 sysOpenFail (fun _ => oZero) 2
      (by decide)⟩

/-- C7: in the OPENING handler each leg's amount is the target notional
divided by that leg's fetched price, and the legs are opened with
opposite sides, buy on A and sell on B (`handleOpening_ok_eq` spells out
the resulting record; this restates the amount/side facts through the
recorded positions). -/
theorem C7_opening_amounts_and_sides (sys : StratSys) (o : Oracle)
    (hA : sys.exA.connected = true) (hB : sys.exB.connected = true) :
    ∃ sys' : StratSys,
      handleOpening sys o = .ok sys' ∧
      dictGet sys.symbol sys'.exA.positions =
        some { symbol := sys.symbol, side := "buy"
               size := sys.target_size_usd / (sys.exA.current_price + o.dA1)
               entry_price := sys.exA.current_price + o.dA1 + o.dA2
               unrealized_pnl := 0 } ∧
      dictGet sys.symbol sys'.exB.positions =
        some { symbol := sys.symbol, side := "sell"
               size := sys.target_size_usd / (sys.exB.current_price + o.dB1)
               entry_price := sys.exB.current_price + o.dB1 + o.dB2
               unrealized_pnl := 0 } ∧
      sys'.state = .HEDGED :=
  ⟨_, handleOpening_ok_eq sys o hA hB,
   dictGet_dictInsert _ _ _, dictGet_dictInsert _ _ _, rfl⟩

/-- A strategy about to open: leg A quotes 100, leg B quotes 250. -/
def sysOpen : StratSys :=
  { state := .OPENING, exA := mockA, exB := { mockB with current_price := 250 } }

/-- C7 witness: target notional 1000 at leg price 100 yields amount 10
(bought on A), and at leg price 250 yields amount 4 (sold on B). -/
theorem C7_witness :
    ∃ sys' : StratSys,
      handleOpening sysOpen oZero = .ok sys' ∧
      dictGet "BTC-PERP" sys'.exA.positions =
        some { symbol := "BTC-PERP", side := "buy", size := 10
               entry_price := 100, unrealized_pnl := 0 } ∧
      dictGet "BTC-PERP" sys'.exB.positions =
        some { symbol := "BTC-PERP", side := "sell", size := 4
               entry_price := 250, unrealized_pnl := 0 } ∧
      sys'.state = .HEDGED := by
  obtain ⟨sys', h1, h2, h3, h4⟩ :=
    C7_opening_amounts_and_sides sysOpen oZero rfl rfl
  rw [show sysOpen.symbol = "BTC-PERP" from rfl] at h2 h3
  refine ⟨sys', h1, ?_, ?_, h4⟩
  · rw [h2]
    simp only [Option.some.injEq, Position.mk.injEq, sysOpen, mockA, oZero]
    norm_num
  · rw [h3]
    simp only [Option.some.injEq, Position.mk.injEq, sysOpen, mockB, oZero]
    norm_num

/-- A `'buy'` position as the strategy opens on leg A. -/
def posBuy : Position :=
  { symbol := "BTC-PERP", side := "buy", size := 10
    entry_price := 100, unrealized_pnl := 0 }

/-- A `'sell'` position as the strategy opens on leg B. -/
def posSell : Position :=
  { symbol := "BTC-PERP", side := "sell", size := 10
    entry_price := 100, unrealized_pnl := 0 }

/-- A hedged strategy holding one position on each leg. -/
def sysHedged : StratSys :=
  { state := .HEDGED
    exA := { mockA with positions := [("BTC-PERP", posBuy)] }
    exB := { mockB with positions := [("BTC-PERP", posSell)] } }

/-- A strategy about to close. -/
def sysClose : StratSys := { state := .CLOSING, exA := mockA, exB := mockB }

/-- From a successful `_handle_opening` pass both legs must have been
connected (otherwise `open_position` would have raised). -/
theorem handleOpening_ok_connected (sys : StratSys) (o : Oracle)
    (sys' : StratSys) (h : handleOpening sys o = .ok sys') :
    sys.exA.connected = true ∧ sys.exB.connected = true := by
  unfold handleOpening at h
  dsimp only at h
  constructor
  · by_cases hc : sys.exA.connected = true
    · exact hc
    · rw [Bool.not_eq_true] at hc
      simp [openPosition, getPrice, hc] at h
  · by_cases hc : sys.exB.connected = true
    · exact hc
    · rw [Bool.not_eq_true] at hc
      split at h
      · cases h
      · simp [openPosition, getPrice, hc] at h

/-- C8: a successful advance step from any reachable state moves exactly
one step along the cycle IDLE → OPENING → HEDGED → CLOSING → IDLE; the
cycle successor never fixes a state (no state is terminal), and from
every state some configuration advances successfully. -/
theorem C8_advance_cycle :
    (∀ (sys sys' : StratSys) (o : Oracle),
      stratStepRes sys o = .ok sys' → sys'.state = cycleNext sys.state) ∧
    (∀ s : StrategyState, cycleNext s ≠ s) ∧
    (∀ s : StrategyState, ∃ (sys : StratSys) (o : Oracle),
      sys.state = s ∧ (stratStepRes sys o).isErr = false) := by
  refine ⟨?_, by intro s; cases s <;> decide, ?_⟩
  · intro sys sys' o h
    unfold stratStepRes at h
    split at h
    next heq =>
      unfold handleIdle at h
      cases h
      rw [heq]
      rfl
    next heq =>
      unfold handleOpening at h
      dsimp only at h
      split at h
      · cases h
      · split at h
        · cases h
        · cases h
          rw [heq]
          rfl
    next heq =>
      unfold handleHedged at h
      split at h
      · cases h
      · cases h
        rw [heq]
        rfl
    next heq =>
      unfold handleClosing at h
      dsimp only at h
      cases h
      rw [heq]
      rfl
  · intro s
    cases s
    · exact ⟨sysIdle, oZero, rfl, rfl⟩
    · exact ⟨sysOpen, oZero, rfl, rfl⟩
    · exact ⟨sysHedged, oZero, rfl, rfl⟩
    · exact ⟨sysClose, oZero, rfl, rfl⟩

/-- C8 witness: one successful step from IDLE lands in OPENING, the cycle
successor of IDLE. -/
theorem C8_witness :
    StratSys.state { sysIdle with state := .OPENING } =
      cycleNext sysIdle.state :=
  C8_advance_cycle.1 sysIdle { sysIdle with state := .OPENING } oZero rfl

/-- C9: `get_positions` recomputes every position's pnl against the
latest price; a position whose stored side is not the exact string
`'short'` gets the long formula `(current - entry) * size`, and the
negated formula applies only when the side is `'short'`.  The strategy's
OPENING pass stores sides `'buy'` and `'sell'` — never `'short'` — so its
positions always get the long formula on both legs. -/
theorem C9_nonshort_pnl_long_formula :
    (∀ (current_p : ℚ) (p : Position), ¬ p.side = "short" →
      (pnlUpdate current_p p).unrealized_pnl =
        (current_p - p.entry_price) * p.size) ∧
    (∀ (current_p : ℚ) (p : Position), p.side = "short" →
      (pnlUpdate current_p p).unrealized_pnl =
        -(current_p - p.entry_price) * p.size) ∧
    (∀ (ex : MockExchange) (change : ℚ),
      (getPositions ex change).2 =
        ex.positions.map (fun q => pnlUpdate (ex.current_price + change) q.2)) ∧
    (∀ (sys : StratSys) (o : Oracle) (sys' : StratSys),
      handleOpening sys o = .ok sys' →
      ∃ pA pB : Position,
        dictGet sys.symbol sys'.exA.positions = some pA ∧ pA.side = "buy" ∧
        ¬ pA.side = "short" ∧
        dictGet sys.symbol sys'.exB.positions = some pB ∧ pB.side = "sell" ∧
        ¬ pB.side = "short") := by
  refine ⟨?_, ?_, ?_, ?_⟩
  · intro current_p p hside
    simp [pnlUpdate, hside]
  · intro current_p p hside
    simp only [pnlUpdate, hside, if_pos]
    try ring
  · intro ex change
    simp only [getPositions, getPrice, List.map_map]
    rfl
  · intro sys o sys' h
    obtain ⟨hA, hB⟩ := handleOpening_ok_connected sys o sys' h
    rw [handleOpening_ok_eq sys o hA hB] at h
    cases h
    refine ⟨{ symbol := sys.symbol, side := "buy"
              size := sys.target_size_usd / (sys.exA.current_price + o.dA1)
              entry_price := sys.exA.current_price + o.dA1 + o.dA2
              unrealized_pnl := 0 },
            { symbol := sys.symbol, side := "sell"
              size := sys.target_size_usd / (sys.exB.current_price + o.dB1)
              entry_price := sys.exB.current_price + o.dB1 + o.dB2
              unrealized_pnl := 0 },
            dictGet_dictInsert _ _ _, rfl, ?_,
            dictGet_dictInsert _ _ _, rfl, ?_⟩
    · show ¬ ("buy" : String) = "short"
      decide
    · show ¬ ("sell" : String) = "short"
      decide

/-- C9 witness: at price 110, a `'buy'` position and a `'sell'` position
(entry 100, size 10) both get the long formula — in particular the sell
leg's pnl is `(110 - 100) * 10`, not its negation. -/
theorem C9_witness :
    (pnlUpdate 110 posBuy).unrealized_pnl =
      (110 - posBuy.entry_price) * posBuy.size ∧
    (pnlUpdate 110 posSell).unrealized_pnl =
      (110 - posSell.entry_price) * posSell.size :=
  ⟨C9_nonshort_pnl_long_formula.1 110 posBuy (by decide),
   C9_nonshort_pnl_long_formula.1 110 posSell (by decide)⟩

/-- C10: `BotInstance.start` sets `running = True` before connecting the
adapters, so if either leg's `connect` raises, the caller sees the error
while the instance is left flagged running with no task spawned; every
subsequent `start()` then returns immediately (no reconnection attempt,
no events), and a subsequent `stop()` only resets the flag (no task to
cancel). -/
theorem C10_start_flag_set_before_connect (b : BotInstance)
    (connA connB : Bool)
    (hr : b.running = false) (ht : b.hasTask = false)
    (hc : connA = false ∨ connB = false) :
    ¬ ((b.start connA connB).2.1 = .ok ()) ∧
    (b.start connA connB).1.running = true ∧
    (b.start connA connB).1.hasTask = false ∧
    ((b.start connA connB).2.2.contains .spawnTask) = false ∧
    (∀ cA cB : Bool,
      (b.start connA connB).1.start cA cB =
        ((b.start connA connB).1, .ok (), [])) ∧
    (b.start connA connB).1.stop =
      ({ (b.start connA connB).1 with running := false }, []) := by
  rcases b with ⟨r, t, s⟩
  simp only at hr ht
  subst hr
  subst ht
  rcases hc with h1 | h1
  · subst h1
    simp [BotInstance.start, BotInstance.stop]
  · subst h1
    cases connA <;> simp [BotInstance.start, BotInstance.stop]

/-- An idle, never-started instance. -/
def bot0 : BotInstance := { strat := sysIdle }

/-- C10 witness: leg A's connect fails on first start. -/
theorem C10_witness :
    ¬ ((bot0.start false true).2.1 = .ok ()) ∧
    (bot0.start false true).1.running = true ∧
    (bot0.start false true).1.hasTask = false ∧
    ((bot0.start false true).2.2.contains .spawnTask) = false ∧
    (∀ cA cB : Bool,
      (bot0.start false true).1.start cA cB =
        ((bot0.start false true).1, .ok (), [])) ∧
    (bot0.start false true).1.stop =
      ({ (bot0.start false true).1 with running := false }, []) :=
  C10_start_flag_set_before_connect bot0 false true rfl rfl (Or.inl rfl)

end Flow
